import Mathlib

/-!
Formal model of the h4r-heartbeat repository.

Two source files are embedded shallowly over `ℚ`:

* `src/script.js` — the 2D snow/ice particle field (`createFlake`,
  `drawSnow`, `burstIceShards`), the presentation sequencer built from
  nested `setTimeout` calls (`startSequence`), and the load-gating
  registration that starts the sequence once both images are ready.
* `src/main.js` — the GSAP master timeline driving the 3D logo scene
  (groups, per-mesh material opacities, and the tweened camera state).

`Math.random()` draws are modelled as explicit rational parameters
constrained to `[0, 1)`.  Angles are measured in units of π radians, so
the source's `Math.PI * 2` appears as the rational `2`.
-/

namespace H4R

/-! ### Particle field (src/script.js) -/

/-- A snow/ice particle, mirroring the object literal returned by
`createFlake` in src/script.js. -/
structure Flake where
  x : ℚ
  y : ℚ
  radius : ℚ
  speedY : ℚ
  speedX : ℚ
  alpha : ℚ
deriving DecidableEq, Repr

/-- A bundle of six rational values standing for the (up to) six
`Math.random()` draws a single particle construction consumes, in the
order the fields appear in the source. -/
structure Rnd where
  a : ℚ
  b : ℚ
  c : ℚ
  d : ℚ
  e : ℚ
  f : ℚ
deriving DecidableEq, Repr

/-- Every simulated `Math.random()` draw lies in `[0, 1)`. -/
def validRnd (r : Rnd) : Prop :=
  (0 ≤ r.a ∧ r.a < 1) ∧ (0 ≤ r.b ∧ r.b < 1) ∧ (0 ≤ r.c ∧ r.c < 1) ∧
  (0 ≤ r.d ∧ r.d < 1) ∧ (0 ≤ r.e ∧ r.e < 1) ∧ (0 ≤ r.f ∧ r.f < 1)

instance (r : Rnd) : Decidable (validRnd r) := by
  unfold validRnd; infer_instance

/-- `createFlake(extraBurst)` from src/script.js, with the canvas size
`w × h` and the random draws made explicit.  Source fields in order:
`x`, `y`, `radius`, `speedY`, `speedX`, `alpha`. -/
def createFlake (w h : ℚ) (extraBurst : Bool) (r : Rnd) : Flake :=
  { x := r.a * w
    y := if extraBurst then h * (2/5) else r.b * h
    radius := if extraBurst then 1 + r.c * 2 else 3/5 + r.c * (9/5)
    speedY := 1/2 + r.d * (3/2) + (if extraBurst then 6/5 else 0)
    speedX := (r.e - 1/2) * (2/5)
    alpha := 2/5 + r.f * (3/5) }

/-- One shard pushed by `burstIceShards`: `Object.assign(createFlake(true),
{x, y, speedX, speedY, radius})` — the base flake's fields `x`, `y`,
`speedX`, `speedY`, `radius` are overwritten with fresh draws (`ro`);
only `alpha` survives from the base (`rb`). -/
def burstShard (w h : ℚ) (rb ro : Rnd) : Flake :=
  { createFlake w h true rb with
    x := w / 2 + (ro.a - 1/2) * (w * (3/20))
    y := h / 2 + (ro.b - 1/2) * (h * (3/20))
    speedX := (ro.c - 1/2) * 3
    speedY := 1 + ro.d * 3
    radius := 1 + ro.e * 2 }

/-- `burstIceShards()` from src/script.js: pushes exactly 60 shards onto
the pool (the loop bound 60 is hard-coded in the source). -/
def burstIceShards (w h : ℚ) (rs : ℕ → Rnd × Rnd) (fs : List Flake) : List Flake :=
  fs ++ (List.range 60).map (fun i => burstShard w h (rs i).1 (rs i).2)

/-- The per-particle body of the `drawSnow` loop (src/script.js lines
39–53): move by the velocity, then recycle at the top if the particle
left through the bottom, else wrap horizontally.  The source's two `if`
statements for `x` are kept as written (they are sequential, not
`else if`).  When the bottom-recycle fires, the source stores a fresh
`createFlake(false)` with `y = -5` into the pool slot; the subsequent
`x` checks there mutate the local variable `f` — the old, discarded
object — so the fresh flake's `x` is untouched, which this definition
reproduces. -/
def stepFlake (w h : ℚ) (fresh : Flake) (f : Flake) : Flake :=
  let f1 : Flake := { f with y := f.y + f.speedY, x := f.x + f.speedX }
  if f1.y > h then
    { fresh with y := -5 }
  else
    let f2 : Flake := if f1.x > w + 5 then { f1 with x := -5 } else f1
    let f3 : Flake := if f2.x < -5 then { f2 with x := w + 5 } else f2
    f3

/-- The simulation part of one `drawSnow` frame: every particle in the
pool is advanced (and wrapped/recycled) exactly once, in place.  `fr i`
supplies the random draws used if slot `n + i` has to be recycled. -/
def drawSnowTick (w h : ℚ) (fr : ℕ → Rnd) : ℕ → List Flake → List Flake
  | _, [] => []
  | n, f :: fs =>
      stepFlake w h (createFlake w h false (fr n)) f :: drawSnowTick w h fr (n + 1) fs

/-- The initial pool fill (`for i < maxFlakes: flakes.push(createFlake(false))`). -/
def initPool (w h : ℚ) (irs : List Rnd) : List Flake :=
  irs.map (createFlake w h false)

/-- The two operations that ever touch the pool after the initial fill:
a `drawSnow` tick, or a `burstIceShards` call. -/
inductive Op where
  | tick (fr : ℕ → Rnd)
  | burst (rs : ℕ → Rnd × Rnd)

/-- Apply one pool operation. -/
def applyOp (w h : ℚ) (fs : List Flake) : Op → List Flake
  | .tick fr => drawSnowTick w h fr 0 fs
  | .burst rs => burstIceShards w h rs fs

/-- Run a sequence of pool operations. -/
def runOps (w h : ℚ) (fs : List Flake) : List Op → List Flake
  | [] => fs
  | op :: rest => runOps w h (applyOp w h fs op) rest

/-- All random draws an operation consumes lie in `[0, 1)`. -/
def validOp : Op → Prop
  | .tick fr => ∀ i, validRnd (fr i)
  | .burst rs => ∀ i, validRnd (rs i).1 ∧ validRnd (rs i).2

/-- Number of `burstIceShards` calls in an operation sequence. -/
def countBursts : List Op → ℕ
  | [] => 0
  | .tick _ :: rest => countBursts rest
  | .burst _ :: rest => 1 + countBursts rest

/-- Position bounds asserted by the spec: horizontally within
`[-5, width + 5]`, vertically within `[-5, height]`. -/
def inBounds (w h : ℚ) (f : Flake) : Prop :=
  -5 ≤ f.x ∧ f.x ≤ w + 5 ∧ -5 ≤ f.y ∧ f.y ≤ h

/-- Every particle of a pool is within the spec's position bounds. -/
def allInBounds (w h : ℚ) (fs : List Flake) : Prop :=
  ∀ f ∈ fs, inBounds w h f

/-- The documented center-biased seeding window for burst shards:
`width/2 ± width·0.075` horizontally, `height/2 ± height·0.075`
vertically. -/
def inBurstWindow (w h : ℚ) (f : Flake) : Prop :=
  w / 2 - w * (3/40) ≤ f.x ∧ f.x ≤ w / 2 + w * (3/40) ∧
  h / 2 - h * (3/40) ≤ f.y ∧ f.y ≤ h / 2 + h * (3/40)

/-- Every particle of a list is inside the center-biased burst window. -/
def allInBurstWindow (w h : ℚ) (fs : List Flake) : Prop :=
  ∀ f ∈ fs, inBurstWindow w h f

/-! ### Presentation sequencer (src/script.js) -/

/-- `SHOW_CHRISTMAS` (ms): how long the Xmas logo sits. -/
def SHOW_CHRISTMAS : ℕ := 4500

/-- `EXPLODE_DURATION` (ms): shake / explode. -/
def EXPLODE_DURATION : ℕ := 900

/-- `SHOW_ICY` (ms): how long the icy text sits. -/
def SHOW_ICY : ℕ := 5000

/-- `LOOP_PAUSE` (ms): pause before restarting. -/
def LOOP_PAUSE : ℕ := 1000

/-- The sequencer states of the spec's finite state machine. -/
inductive SeqState where
  | ShowingA
  | Exploding
  | ShowingB
  | FadingOut
deriving DecidableEq, Repr

/-- One full cycle of the `startSequence` timer chain. -/
def LOOP_TOTAL : ℕ := SHOW_CHRISTMAS + EXPLODE_DURATION + SHOW_ICY + LOOP_PAUSE

/-- The sequencer state at `t` milliseconds after the first
`startSequence` call, read off the nested `setTimeout` chain in
src/script.js: the explode callback fires `SHOW_CHRISTMAS` ms after a
cycle starts, the icy callback `EXPLODE_DURATION` ms later, the
fade-out callback `SHOW_ICY` ms later, and `startSequence` recurses
`LOOP_PAUSE` ms after that, so the chain is periodic with period
`LOOP_TOTAL`. -/
def seqStateAt (t : ℕ) : SeqState :=
  let r := t % LOOP_TOTAL
  if r < SHOW_CHRISTMAS then .ShowingA
  else if r < SHOW_CHRISTMAS + EXPLODE_DURATION then .Exploding
  else if r < SHOW_CHRISTMAS + EXPLODE_DURATION + SHOW_ICY then .ShowingB
  else .FadingOut

/-- The load-gating registration at the bottom of src/script.js, as a
count of how many times `startSequence` ends up being invoked.
`christmasComplete` / `dayComplete` say whether each image is already
complete at registration time.  If both are complete, `startSequence`
is called directly.  Otherwise a `load` listener is attached to *both*
images; each listener bumps `loaded` and calls `startSequence` exactly
when `loaded === 2`.  An image that is already complete at registration
has already fired its `load` event, so its listener never runs; an
image that is still loading fires `load` exactly once later.  Hence the
number of listener invocations equals the number of images that were
not complete at registration, and `loaded` reaches 2 only if both were
still loading. -/
def startCount (christmasComplete dayComplete : Bool) : ℕ :=
  if christmasComplete && dayComplete then 1
  else
    let firedLoadEvents :=
      (if christmasComplete then 0 else 1) + (if dayComplete then 0 else 1)
    if firedLoadEvents == 2 then 1 else 0

/-! ### Helper lemmas for the particle field -/

/-- Inductive invariant for pool particles: in bounds, and falling
strictly downward (every constructor gives a positive `speedY`). -/
def FlakeInv (w h : ℚ) (f : Flake) : Prop :=
  inBounds w h f ∧ 0 < f.speedY

/-- The sequential wrap/recycle `if`s of the source are equivalent to a
single four-way case split on the moved position. -/
theorem stepFlake_eq (w h : ℚ) (fresh f : Flake) :
    stepFlake w h fresh f =
      if f.y + f.speedY > h then { fresh with y := -5 }
      else if f.x + f.speedX > w + 5 then
        { f with x := -5, y := f.y + f.speedY }
      else if f.x + f.speedX < -5 then
        { f with x := w + 5, y := f.y + f.speedY }
      else { f with x := f.x + f.speedX, y := f.y + f.speedY } := by
  by_cases h1 : f.y + f.speedY > h
  · simp [stepFlake, h1]
  · by_cases h2 : f.x + f.speedX > w + 5
    · simp [stepFlake, h1, h2]
    · by_cases h3 : f.x + f.speedX < -5
      · simp [stepFlake, h1, h2, h3]
      · simp [stepFlake, h1, h2, h3]

/-- A freshly created ambient flake satisfies the pool invariant. -/
theorem createFlake_ambient_inv (w h : ℚ) (hw : 0 ≤ w) (hh : 0 ≤ h)
    (r : Rnd) (hr : validRnd r) :
    FlakeInv w h (createFlake w h false r) := by
  obtain ⟨⟨ha0, ha1⟩, ⟨hb0, hb1⟩, _, ⟨hd0, _⟩, _, _⟩ := hr
  refine ⟨⟨?_, ?_, ?_, ?_⟩, ?_⟩ <;> simp only [createFlake, if_neg Bool.false_ne_true] <;>
    nlinarith

/-- A burst shard satisfies the pool invariant. -/
theorem burstShard_inv (w h : ℚ) (hw : 0 ≤ w) (hh : 0 ≤ h)
    (rb ro : Rnd) (hro : validRnd ro) :
    FlakeInv w h (burstShard w h rb ro) := by
  obtain ⟨⟨ha0, ha1⟩, ⟨hb0, hb1⟩, _, ⟨hd0, _⟩, _, _⟩ := hro
  refine ⟨⟨?_, ?_, ?_, ?_⟩, ?_⟩ <;> simp only [burstShard] <;> nlinarith

/-- One wrap/recycle step preserves the pool invariant. -/
theorem stepFlake_inv (w h : ℚ) (hw : 0 ≤ w) (hh : 0 ≤ h)
    (fresh f : Flake) (hfr : FlakeInv w h fresh) (hf : FlakeInv w h f) :
    FlakeInv w h (stepFlake w h fresh f) := by
  obtain ⟨⟨hx0, hx1, hy0, hy1⟩, hsy⟩ := hf
  obtain ⟨⟨gx0, gx1, _, _⟩, gsy⟩ := hfr
  rw [stepFlake_eq]
  by_cases h1 : f.y + f.speedY > h
  · refine ⟨⟨?_, ?_, ?_, ?_⟩, ?_⟩ <;> simp [h1] <;> nlinarith
  · by_cases h2 : f.x + f.speedX > w + 5
    · refine ⟨⟨?_, ?_, ?_, ?_⟩, ?_⟩ <;> simp [h1, h2] <;> nlinarith
    · by_cases h3 : f.x + f.speedX < -5
      · refine ⟨⟨?_, ?_, ?_, ?_⟩, ?_⟩ <;> simp [h1, h2, h3] <;> nlinarith
      · refine ⟨⟨?_, ?_, ?_, ?_⟩, ?_⟩ <;> simp [h1, h2, h3] <;> nlinarith

/-- A `drawSnow` tick preserves the pool invariant. -/
theorem drawSnowTick_inv (w h : ℚ) (hw : 0 ≤ w) (hh : 0 ≤ h)
    (fr : ℕ → Rnd) (hfr : ∀ i, validRnd (fr i)) :
    ∀ (n : ℕ) (fs : List Flake), (∀ f ∈ fs, FlakeInv w h f) →
      ∀ g ∈ drawSnowTick w h fr n fs, FlakeInv w h g := by
  intro n fs
  induction fs generalizing n with
  | nil => intro _ g hg; simp [drawSnowTick] at hg
  | cons f fs ih =>
      intro hall g hg
      simp only [drawSnowTick, List.mem_cons] at hg
      rcases hg with rfl | hg
      · exact stepFlake_inv w h hw hh _ _
          (createFlake_ambient_inv w h hw hh _ (hfr n)) (hall f (by simp))
      · exact ih (n + 1) (fun f' hf' => hall f' (by simp [hf'])) g hg

/-- A burst preserves the pool invariant. -/
theorem burstIceShards_inv (w h : ℚ) (hw : 0 ≤ w) (hh : 0 ≤ h)
    (rs : ℕ → Rnd × Rnd) (hrs : ∀ i, validRnd (rs i).1 ∧ validRnd (rs i).2)
    (fs : List Flake) (hall : ∀ f ∈ fs, FlakeInv w h f) :
    ∀ g ∈ burstIceShards w h rs fs, FlakeInv w h g := by
  intro g hg
  simp only [burstIceShards, List.mem_append, List.mem_map] at hg
  rcases hg with hg | ⟨i, _, rfl⟩
  · exact hall g hg
  · exact burstShard_inv w h hw hh _ _ (hrs i).2

/-- Every reachable pool state satisfies the invariant. -/
theorem runOps_inv (w h : ℚ) (hw : 0 ≤ w) (hh : 0 ≤ h) :
    ∀ (ops : List Op), (∀ op ∈ ops, validOp op) →
      ∀ (fs : List Flake), (∀ f ∈ fs, FlakeInv w h f) →
        ∀ g ∈ runOps w h fs ops, FlakeInv w h g := by
  intro ops
  induction ops with
  | nil => intro _ fs hall g hg; exact hall g hg
  | cons op rest ih =>
      intro hops fs hall g hg
      refine ih (fun o ho => hops o (by simp [ho])) (applyOp w h fs op) ?_ g hg
      cases op with
      | tick fr =>
          have hv : validOp (Op.tick fr) := hops _ (by simp)
          exact drawSnowTick_inv w h hw hh fr hv 0 fs hall
      | burst rs =>
          have hv : validOp (Op.burst rs) := hops _ (by simp)
          exact burstIceShards_inv w h hw hh rs hv fs hall

/-- A `drawSnow` tick never changes the pool's length. -/
theorem length_drawSnowTick (w h : ℚ) (fr : ℕ → Rnd) :
    ∀ (n : ℕ) (fs : List Flake), (drawSnowTick w h fr n fs).length = fs.length := by
  intro n fs
  induction fs generalizing n with
  | nil => rfl
  | cons f fs ih => simp [drawSnowTick, ih]

/-- Pool length after a run of operations. -/
theorem length_runOps (w h : ℚ) :
    ∀ (ops : List Op) (fs : List Flake),
      (runOps w h fs ops).length = fs.length + 60 * countBursts ops := by
  intro ops
  induction ops with
  | nil => intro fs; simp [runOps, countBursts]
  | cons op rest ih =>
      intro fs
      cases op with
      | tick fr =>
          simp [runOps, applyOp, ih, countBursts, length_drawSnowTick]
      | burst rs =>
          simp [runOps, applyOp, ih, countBursts, burstIceShards]
          ring

/-- `countBursts` is additive over concatenation. -/
theorem countBursts_append (pre post : List Op) :
    countBursts (pre ++ post) = countBursts pre + countBursts post := by
  induction pre with
  | nil => simp [countBursts]
  | cons op rest ih => cases op <;> simp [countBursts, ih] <;> ring

/-- The pool length never decreases along prefixes of an operation
sequence. -/
def poolLenMono (w h : ℚ) (fs : List Flake) (ops : List Op) : Prop :=
  ∀ pre post, ops = pre ++ post →
    (runOps w h fs pre).length ≤ (runOps w h fs ops).length

/-! ### Theorems about the particle field and sequencer -/

/-- **C3**: with `SHOW_A_MS = 4500`, `EXPLODE_MS = 900`,
`SHOW_B_MS = 5000`, `PAUSE_MS = 1000` and the sequence starting at
`t = 0`, the sequencer is in `ShowingA` at 4000 ms, `Exploding` at
4600 ms, `ShowingB` at 5800 ms, `FadingOut` at 10700 ms, and back in
`ShowingA` at 11800 ms. -/
theorem sequencer_timing_scenario :
    seqStateAt 4000 = .ShowingA ∧
    seqStateAt 4600 = .Exploding ∧
    seqStateAt 5800 = .ShowingB ∧
    seqStateAt 10700 = .FadingOut ∧
    seqStateAt 11800 = .ShowingA := by
  decide

/-- **C4**: starting from the initial pool fill and applying any
sequence of `drawSnow` ticks and `burstIceShards` calls (all random
draws in `[0,1)`), every particle of every reachable pool state — in
particular immediately after each tick's wrap/recycle rule — has
`x ∈ [-5, width + 5]` and `y ∈ [-5, height]`. -/
theorem particle_position_bounds (w h : ℚ) (hw : 0 ≤ w) (hh : 0 ≤ h)
    (irs : List Rnd) (hirs : ∀ r ∈ irs, validRnd r)
    (ops : List Op) (hops : ∀ op ∈ ops, validOp op) :
    allInBounds w h (runOps w h (initPool w h irs) ops) := by
  intro g hg
  have hinit : ∀ f ∈ initPool w h irs, FlakeInv w h f := by
    intro f hf
    simp only [initPool, List.mem_map] at hf
    obtain ⟨r, hr, rfl⟩ := hf
    exact createFlake_ambient_inv w h hw hh r (hirs r hr)
  exact (runOps_inv w h hw hh ops hops (initPool w h irs) hinit g hg).1

/-- Fixed sample "random" draw used by the concrete witnesses. -/
def rZero : Rnd := ⟨0, 0, 0, 0, 0, 0⟩

/-- The sample draw is a legal `Math.random()` outcome. -/
theorem rZero_valid : validRnd rZero := by decide

/-- Witness for C4: a concrete 10 × 10 field, a one-particle initial
pool, one tick followed by one burst. -/
theorem particle_position_bounds_witness :
    allInBounds 10 10 (runOps 10 10 (initPool 10 10 [rZero])
      [Op.tick (fun _ => rZero), Op.burst (fun _ => (rZero, rZero))]) :=
  particle_position_bounds 10 10 (by norm_num) (by norm_num)
    [rZero] (by intro r hr; simp only [List.mem_singleton] at hr; subst hr; exact rZero_valid)
    [Op.tick (fun _ => rZero), Op.burst (fun _ => (rZero, rZero))]
    (by
      intro op hop
      simp only [List.mem_cons, List.mem_singleton] at hop
      rcases hop with rfl | rfl | h
      · exact fun _ => rZero_valid
      · exact fun _ => ⟨rZero_valid, rZero_valid⟩
      · cases h)

/-- **C5**: one `burstIceShards` call grows the pool by exactly 60
particles, and each of the 60 new particles starts inside the
center-biased window `width/2 ± width·0.075`, `height/2 ± height·0.075`. -/
theorem burst_additivity (w h : ℚ) (hw : 0 ≤ w) (hh : 0 ≤ h)
    (rs : ℕ → Rnd × Rnd) (hrs : ∀ i, validRnd (rs i).2) (fs : List Flake) :
    (burstIceShards w h rs fs).length = fs.length + 60 ∧
    allInBurstWindow w h ((burstIceShards w h rs fs).drop fs.length) := by
  constructor
  · simp [burstIceShards]
  · intro g hg
    rw [burstIceShards, List.drop_left] at hg
    simp only [List.mem_map, List.mem_range] at hg
    obtain ⟨i, _, rfl⟩ := hg
    obtain ⟨⟨ha0, ha1⟩, ⟨hb0, hb1⟩, _, _, _, _⟩ := hrs i
    refine ⟨?_, ?_, ?_, ?_⟩ <;> simp only [burstShard] <;> nlinarith

/-- Witness for C5: burst onto an empty pool of a 10 × 10 field. -/
theorem burst_additivity_witness :
    (burstIceShards 10 10 (fun _ => (rZero, rZero)) ([] : List Flake)).length
      = ([] : List Flake).length + 60 ∧
    allInBurstWindow 10 10
      ((burstIceShards 10 10 (fun _ => (rZero, rZero)) ([] : List Flake)).drop
        ([] : List Flake).length) :=
  burst_additivity 10 10 (by norm_num) (by norm_num)
    (fun _ => (rZero, rZero)) (fun _ => rZero_valid) []

/-- Declarative description of one wrap/recycle step: the particle is
moved exactly once by its velocity; if the moved vertical position
exceeds the lower bound the slot is replaced by the freshly randomized
particle placed at the top (`y = -5`); else if the moved horizontal
position exceeds a side bound the particle is moved to the opposite
side with its velocity, radius and alpha unchanged; else it simply
keeps the moved position. -/
def stepSpec (w h : ℚ) (fresh f g : Flake) : Prop :=
  (f.y + f.speedY > h → g = { fresh with y := -5 }) ∧
  (¬ f.y + f.speedY > h → f.x + f.speedX > w + 5 →
    g = { f with x := -5, y := f.y + f.speedY }) ∧
  (¬ f.y + f.speedY > h → ¬ f.x + f.speedX > w + 5 → f.x + f.speedX < -5 →
    g = { f with x := w + 5, y := f.y + f.speedY }) ∧
  (¬ f.y + f.speedY > h → ¬ f.x + f.speedX > w + 5 → ¬ f.x + f.speedX < -5 →
    g = { f with x := f.x + f.speedX, y := f.y + f.speedY })

/-- A tick keeps the pool length and rewrites slot `i` from the old
slot-`i` particle according to `stepSpec`, using the fresh draws for
slot `i`. -/
def tickMatchesSpec (w h : ℚ) (fr : ℕ → Rnd) (n : ℕ) (fs : List Flake) : Prop :=
  (drawSnowTick w h fr n fs).length = fs.length ∧
  ∀ i f g, fs[i]? = some f → (drawSnowTick w h fr n fs)[i]? = some g →
    stepSpec w h (createFlake w h false (fr (n + i))) f g

/-- **C8**: on every tick each particle is advanced exactly once by its
velocity, bottom-exiting particles are recycled as fresh particles at
the top, and side-exiting particles wrap to the opposite side with
velocity, radius and alpha unchanged. -/
theorem drawSnow_tick_spec (w h : ℚ) (fr : ℕ → Rnd) (n : ℕ) (fs : List Flake) :
    tickMatchesSpec w h fr n fs := by
  constructor
  · exact length_drawSnowTick w h fr n fs
  · intro i
    induction fs generalizing n i with
    | nil => intro f g hf _; simp at hf
    | cons f0 fs ih =>
        intro f g hf hg
        cases i with
        | zero =>
            simp only [drawSnowTick, List.getElem?_cons_zero] at hf hg
            injection hf with hff
            injection hg with hgg
            subst hff; subst hgg
            rw [stepFlake_eq]
            refine ⟨?_, ?_, ?_, ?_⟩ <;> intros <;> split_ifs <;>
              first | rfl | linarith
        | succ j =>
            simp only [drawSnowTick, List.getElem?_cons_succ] at hf hg
            have hrec := ih (n + 1) j f g hf hg
            have hidx : n + 1 + j = n + (j + 1) := by omega
            rwa [hidx] at hrec

/-- **C10**: the pool length is exactly `140 + 60·k` after `k` bursts,
whatever ticks are interleaved (ticks replace bottom-exiting particles
in place and never remove), and the length is monotonically
nondecreasing along the operation sequence. -/
theorem pool_length_law (w h : ℚ) (irs : List Rnd) (h140 : irs.length = 140)
    (ops : List Op) :
    (runOps w h (initPool w h irs) ops).length = 140 + 60 * countBursts ops ∧
    poolLenMono w h (initPool w h irs) ops := by
  have hlen : ∀ os : List Op, (runOps w h (initPool w h irs) os).length
      = 140 + 60 * countBursts os := by
    intro os
    rw [length_runOps]
    simp [initPool, h140]
  refine ⟨hlen ops, ?_⟩
  intro pre post hsplit
  rw [hlen pre, hlen ops, hsplit, countBursts_append]
  omega

/-- Witness for C10: a 140-particle initial pool, then one burst and
one tick. -/
theorem pool_length_law_witness :
    (runOps 10 10 (initPool 10 10 (List.replicate 140 rZero))
        [Op.burst (fun _ => (rZero, rZero)), Op.tick (fun _ => rZero)]).length
      = 140 + 60 * countBursts
          [Op.burst (fun _ => (rZero, rZero)), Op.tick (fun _ => rZero)] ∧
    poolLenMono 10 10 (initPool 10 10 (List.replicate 140 rZero))
      [Op.burst (fun _ => (rZero, rZero)), Op.tick (fun _ => rZero)] :=
  pool_length_law 10 10 (List.replicate 140 rZero) (by simp)
    [Op.burst (fun _ => (rZero, rZero)), Op.tick (fun _ => rZero)]

/-- **C1** (code bug): the claim asks for exactly one `startSequence`
invocation for *every* readiness-timing combination, but when exactly
one image is already complete at registration and the other loads
later, the already-complete image never fires a `load` event, the
`loaded` counter peaks at 1, and `startSequence` is never invoked —
zero starts.  The two combinations the code does handle (both complete,
or both loading) each give exactly one start. -/
theorem startSequence_mixed_readiness_never_starts :
    startCount true false = 0 ∧ startCount false true = 0 ∧
    startCount true true = 1 ∧ startCount false false = 1 := by
  decide

/-! ### GSAP timeline model (src/main.js)

The scene graph's mutable state is flattened into one record.  Opacity
lives on mesh materials; `setOpacity(group, v)` traverses a group and
writes `v` into every descendant mesh material, so it is modelled by
one helper per group that writes the per-mesh opacity fields that group
contains (`addonGroup` contains both the text plane and the small heart
plane).  Rotations are measured in units of π radians, so the source's
`Math.PI * 2` is the rational `2`.  `smallHeartPlane.scale` is omitted:
no statement of the source ever changes it after construction. -/

/-- A rational 3-vector (position / scale / rotation / camera state). -/
structure V3 where
  x : ℚ
  y : ℚ
  z : ℚ
deriving DecidableEq, Repr

/-- All scene-graph state the timeline of src/main.js ever mutates. -/
structure SceneState where
  heartScale : V3
  heartOpacity : ℚ
  textScale : V3
  textRot : V3
  textOpacity : ℚ
  smallPos : V3
  smallRot : V3
  smallOpacity : ℚ
  addonPos : V3
  addonScale : V3
  addonRot : V3
  glowScale : V3
  glowPos : V3
  glowOpacity : ℚ
  fullRot : V3
  fullScale : V3
  cam : V3
deriving DecidableEq, Repr

/-- `setOpacity(heartGroup, v)`: the only descendant mesh is the big
heart plane. -/
def setOpacityHeart (v : ℚ) (s : SceneState) : SceneState :=
  { s with heartOpacity := v }

/-- `setOpacity(textGroup, v)`: the only descendant mesh is the text
plane. -/
def setOpacityText (v : ℚ) (s : SceneState) : SceneState :=
  { s with textOpacity := v }

/-- `setOpacity(smallHeartPlane, v)`. -/
def setOpacitySmall (v : ℚ) (s : SceneState) : SceneState :=
  { s with smallOpacity := v }

/-- `setOpacity(addonGroup, v)`: the traversal reaches the text plane
(via `textGroup`) and the small heart plane, so it overwrites both
per-mesh opacities. -/
def setOpacityAddon (v : ℚ) (s : SceneState) : SceneState :=
  { s with textOpacity := v, smallOpacity := v }

/-- `setOpacity(glowGroup, v)`: the only descendant mesh is the glow
plane. -/
def setOpacityGlow (v : ℚ) (s : SceneState) : SceneState :=
  { s with glowOpacity := v }

/-- Scene state right after construction (lines 98–127 of src/main.js),
before the "INITIAL STATE" block: THREE.js defaults (scale 1, rotation
0, material opacity 1), the z-stacking positions of lines 124–127, and
the initial `camState` of line 23. -/
def constructionState : SceneState :=
  { heartScale := ⟨1, 1, 1⟩
    heartOpacity := 1
    textScale := ⟨1, 1, 1⟩
    textRot := ⟨0, 0, 0⟩
    textOpacity := 1
    smallPos := ⟨0, 0, 1/50⟩
    smallRot := ⟨0, 0, 0⟩
    smallOpacity := 1
    addonPos := ⟨0, 0, 0⟩
    addonScale := ⟨1, 1, 1⟩
    addonRot := ⟨0, 0, 0⟩
    glowScale := ⟨1, 1, 1⟩
    glowPos := ⟨0, 0, -1/20⟩
    glowOpacity := 1
    fullRot := ⟨0, 0, 0⟩
    fullScale := ⟨1, 1, 1⟩
    cam := ⟨0, 3/10, 4⟩ }

/-- The "INITIAL STATE (Phase 0)" block, lines 138–172, applied in
source order.  Note the block sets text and small-heart opacity to 0
and then `setOpacity(addonGroup, 1)` re-raises both to 1 (the traversal
reaches the same two meshes); the model reproduces that order
faithfully. -/
def initState : SceneState :=
  let s := constructionState
  let s := { s with heartScale := ⟨4/5, 4/5, 4/5⟩ }
  let s := setOpacityHeart 0 s
  let s := { s with textScale := ⟨1/2, 1/2, 1/2⟩ }
  let s := setOpacityText 0 s
  let s := { s with smallPos := ⟨5/2, 5/2, 1/50⟩ }
  let s := setOpacitySmall 0 s
  let s := { s with addonPos := ⟨0, 0, 0⟩, addonScale := ⟨1, 1, 1⟩ }
  let s := setOpacityAddon 1 s
  let s := { s with glowScale := ⟨3/5, 3/5, 3/5⟩ }
  let s := setOpacityGlow 0 s
  let s := { s with fullRot := ⟨0, 0, 0⟩, fullScale := ⟨1, 1, 1⟩ }
  { s with cam := ⟨0, 3/10, 4⟩ }

/-- The Reset phase's `onStart` callback (lines 420–457), applied in
source order.  As in the initial block, `setOpacity(addonGroup, 1)`
re-raises the text and small-heart opacities after they were set to 0. -/
def resetCallback (s : SceneState) : SceneState :=
  let s := { s with heartScale := ⟨4/5, 4/5, 4/5⟩ }
  let s := setOpacityHeart 0 s
  let s := { s with textScale := ⟨1/2, 1/2, 1/2⟩, textRot := ⟨0, 0, 0⟩ }
  let s := setOpacityText 0 s
  let s := { s with smallPos := ⟨5/2, 5/2, 1/50⟩, smallRot := ⟨0, 0, 0⟩ }
  let s := setOpacitySmall 0 s
  let s := { s with addonPos := ⟨0, 0, 0⟩, addonScale := ⟨1, 1, 1⟩,
                    addonRot := ⟨0, 0, 0⟩ }
  let s := setOpacityAddon 1 s
  let s := { s with glowScale := ⟨3/5, 3/5, 3/5⟩, glowPos := ⟨0, 0, -1/20⟩ }
  let s := setOpacityGlow 0 s
  let s := { s with fullRot := ⟨0, 0, 0⟩, fullScale := ⟨1, 1, 1⟩ }
  { s with cam := ⟨0, 3/10, 4⟩ }

/-! #### GSAP easing functions (exact rational forms)

GSAP's `power1` is the quadratic family and `power2` the cubic family;
`back.out(s)` is the overshoot cubic. -/

/-- `ease: "none"`. -/
def linearEase (p : ℚ) : ℚ := p

/-- `power1.out`. -/
def power1Out (p : ℚ) : ℚ := 1 - (1 - p) ^ 2

/-- `power1.inOut`. -/
def power1InOut (p : ℚ) : ℚ :=
  if p < 1/2 then 2 * p ^ 2 else 1 - 2 * (1 - p) ^ 2

/-- `power2.out`. -/
def power2Out (p : ℚ) : ℚ := 1 - (1 - p) ^ 3

/-- `power2.in`. -/
def power2In (p : ℚ) : ℚ := p ^ 3

/-- `power2.inOut`. -/
def power2InOut (p : ℚ) : ℚ :=
  if p < 1/2 then 4 * p ^ 3 else 1 - 4 * (1 - p) ^ 3

/-- `back.out(s)`. -/
def backOut (s p : ℚ) : ℚ :=
  1 + (s + 1) * (p - 1) ^ 3 + s * (p - 1) ^ 2

/-- Linear interpolation from `a` to `b` at eased progress `e`. -/
def lerpQ (a b e : ℚ) : ℚ := a + (b - a) * e

/-- One `tl.to` tween rendered at timeline time `t`: inert before its
start offset, interpolating inside its window, stuck at the end value
(eased progress 1) after it.  `apply` writes the eased progress into
the target properties; start values are the captured values the tween
reads when it first runs (constant across loop iterations, since GSAP
records them once and the Reset phase restores the same state). -/
def tween (pos dur : ℚ) (ease : ℚ → ℚ) (apply : ℚ → SceneState → SceneState)
    (t : ℚ) (s : SceneState) : SceneState :=
  if t < pos then s
  else if t < pos + dur then apply (ease ((t - pos) / dur)) s
  else apply 1 s

/-- A tween with an `onComplete` callback, fired once its window has
passed. -/
def tweenDone (pos dur : ℚ) (ease : ℚ → ℚ)
    (apply : ℚ → SceneState → SceneState) (fin : SceneState → SceneState)
    (t : ℚ) (s : SceneState) : SceneState :=
  if t < pos then s
  else if t < pos + dur then apply (ease ((t - pos) / dur)) s
  else fin (apply 1 s)

/-- A callback-only "tween" (`onStart` / constant-valued `onUpdate`):
its write is in force from its start offset onward. -/
def eventAt (pos : ℚ) (act : SceneState → SceneState)
    (t : ℚ) (s : SceneState) : SceneState :=
  if t < pos then s else act s

/-! #### The timeline's tweens/callbacks, in insertion order.

Positions, durations, targets and eases are the literals of
src/main.js; start values are the captured values (annotated). -/

/-- Phase 1: `heartGroup.scale` 0.8 → 1, `back.out(1.6)`. -/
def w1 : ℚ → SceneState → SceneState :=
  tween 0 (3/5) (backOut (8/5)) fun e s =>
    { s with heartScale := ⟨lerpQ (4/5) 1 e, lerpQ (4/5) 1 e, lerpQ (4/5) 1 e⟩ }

/-- Phase 1: `onUpdate: setOpacity(heartGroup, 1)` (a constant write,
not a fade). -/
def w2 : ℚ → SceneState → SceneState := eventAt 0 (setOpacityHeart 1)

/-- Phase 1: camera push-in, `camState` (0,0.3,4) → (0,0.25,3.6). -/
def w3 : ℚ → SceneState → SceneState :=
  tween 0 (3/5) power2Out fun e s =>
    { s with cam := ⟨lerpQ 0 0 e, lerpQ (3/10) (1/4) e, lerpQ 4 (18/5) e⟩ }

/-- Phase 2: `textGroup.scale` 0.5 → 1, `back.out(1.4)`. -/
def w4 : ℚ → SceneState → SceneState :=
  tween (3/5) (1/2) (backOut (7/5)) fun e s =>
    { s with textScale := ⟨lerpQ (1/2) 1 e, lerpQ (1/2) 1 e, lerpQ (1/2) 1 e⟩ }

/-- Phase 2: `onStart: setOpacity(textGroup, 1)`. -/
def w5 : ℚ → SceneState → SceneState := eventAt (3/5) (setOpacityText 1)

/-- Phase 2: camera shift, (0,0.25,3.6) → (-0.2,0.25,3.55). -/
def w6 : ℚ → SceneState → SceneState :=
  tween (3/5) (1/2) power1Out fun e s =>
    { s with cam := ⟨lerpQ 0 (-1/5) e, lerpQ (1/4) (1/4) e, lerpQ (18/5) (71/20) e⟩ }

/-- Phase 3: `smallHeartPlane.position` (2.5,2.5,0.02) → (0,0,0.02). -/
def w7 : ℚ → SceneState → SceneState :=
  tween (11/10) (7/10) power2Out fun e s =>
    { s with smallPos := ⟨lerpQ (5/2) 0 e, lerpQ (5/2) 0 e, lerpQ (1/50) (1/50) e⟩ }

/-- Phase 3: `addonGroup.scale` pop (1 → 1, a no-op tween). -/
def w8 : ℚ → SceneState → SceneState :=
  tween (11/10) (7/10) (backOut (7/5)) fun e s =>
    { s with addonScale := ⟨lerpQ 1 1 e, lerpQ 1 1 e, lerpQ 1 1 e⟩ }

/-- Phase 3: `onStart: setOpacity(smallHeartPlane, 1)`. -/
def w9 : ℚ → SceneState → SceneState := eventAt (11/10) (setOpacitySmall 1)

/-- Phase 3: camera recenter, (-0.2,0.25,3.55) → (0,0.4,3.4). -/
def w10 : ℚ → SceneState → SceneState :=
  tween (11/10) (7/10) power2Out fun e s =>
    { s with cam := ⟨lerpQ (-1/5) 0 e, lerpQ (1/4) (2/5) e, lerpQ (71/20) (17/5) e⟩ }

/-- Phase 3: slow spin of the mini heart, `rotation.z` 0 → 8π (the
relative target `rotation.z + Math.PI*2*4` is computed at construction
time, when `rotation.z = 0`), linear, over 3 s. -/
def w11 : ℚ → SceneState → SceneState :=
  tween (11/10) 3 linearEase fun e s =>
    { s with smallRot := ⟨s.smallRot.x, s.smallRot.y, lerpQ 0 8 e⟩ }

/-- Phase 3.5: `glowGroup.scale` 0.6 → 1. -/
def w12 : ℚ → SceneState → SceneState :=
  tween (9/5) (2/5) power2Out fun e s =>
    { s with glowScale := ⟨lerpQ (3/5) 1 e, lerpQ (3/5) 1 e, lerpQ (3/5) 1 e⟩ }

/-- Phase 3.5: `onStart: setOpacity(glowGroup, 0.6)`. -/
def w13 : ℚ → SceneState → SceneState := eventAt (9/5) (setOpacityGlow (3/5))

/-- Phase 4 (hero spin): `fullGroup.rotation.y` 0 → 2π (the relative
target `rotation.y + Math.PI*2` is computed at construction, when
`rotation.y = 0`), `power2.inOut`; `onComplete` snaps the rotation back
to exactly 0. -/
def w14 : ℚ → SceneState → SceneState :=
  tweenDone (9/5) (5/2) power2InOut
    (fun e s => { s with fullRot := ⟨s.fullRot.x, lerpQ 0 2 e, s.fullRot.z⟩ })
    (fun s => { s with fullRot := ⟨s.fullRot.x, 0, s.fullRot.z⟩ })

/-- Phase 4: scale punch up, `fullGroup.scale` 1 → 1.15. -/
def w15 : ℚ → SceneState → SceneState :=
  tween (9/5) 1 power2Out fun e s =>
    { s with fullScale := ⟨lerpQ 1 (23/20) e, lerpQ 1 (23/20) e, lerpQ 1 (23/20) e⟩ }

/-- Phase 4: scale punch down, 1.15 → 1. -/
def w16 : ℚ → SceneState → SceneState :=
  tween (14/5) (3/2) power2InOut fun e s =>
    { s with fullScale := ⟨lerpQ (23/20) 1 e, lerpQ (23/20) 1 e, lerpQ (23/20) 1 e⟩ }

/-- Phase 4: camera float back; only `y` and `z` are tweened, `x` is
left untouched. -/
def w17 : ℚ → SceneState → SceneState :=
  tween (9/5) (5/2) power1InOut fun e s =>
    { s with cam := ⟨s.cam.x, lerpQ (2/5) (1/2) e, lerpQ (17/5) (19/5) e⟩ }

/-- Phase 5: `addonGroup.position` (0,0,0) → (1.5,1.5,0.5). -/
def w18 : ℚ → SceneState → SceneState :=
  tween 5 (3/5) power2In fun e s =>
    { s with addonPos := ⟨lerpQ 0 (3/2) e, lerpQ 0 (3/2) e, lerpQ 0 (1/2) e⟩ }

/-- Phase 5: `addonGroup.scale` 1 → 0.4. -/
def w19 : ℚ → SceneState → SceneState :=
  tween 5 (3/5) power2In fun e s =>
    { s with addonScale := ⟨lerpQ 1 (2/5) e, lerpQ 1 (2/5) e, lerpQ 1 (2/5) e⟩ }

/-- Phase 5: `addonGroup.rotation` `z` 0 → π/4 and `y` 0 → π (relative
targets computed at construction, when both are 0); `x` untouched. -/
def w20 : ℚ → SceneState → SceneState :=
  tween 5 (3/5) power2In fun e s =>
    { s with addonRot := ⟨s.addonRot.x, lerpQ 0 1 e, lerpQ 0 (1/4) e⟩ }

/-- Phase 5: `onUpdate: setOpacity(addonGroup, 0)` (a constant write;
it zeroes the text and small-heart mesh opacities). -/
def w21 : ℚ → SceneState → SceneState := eventAt 5 (setOpacityAddon 0)

/-- Phase 5: `glowGroup.scale` 1 → 1.2. -/
def w22 : ℚ → SceneState → SceneState :=
  tween 5 (3/5) power2In fun e s =>
    { s with glowScale := ⟨lerpQ 1 (6/5) e, lerpQ 1 (6/5) e, lerpQ 1 (6/5) e⟩ }

/-- Phase 5: `onStart: setOpacity(glowGroup, 0)`. -/
def w23 : ℚ → SceneState → SceneState := eventAt 5 (setOpacityGlow 0)

/-- Phase 5: camera reaction, (0,0.5,3.8) → (0.2,0.45,4). -/
def w24 : ℚ → SceneState → SceneState :=
  tween 5 (3/5) power2InOut fun e s =>
    { s with cam := ⟨lerpQ 0 (1/5) e, lerpQ (1/2) (9/20) e, lerpQ (19/5) 4 e⟩ }

/-- Phase 6: camera drifts back to hero angle, (0.2,0.45,4) → (0,0.3,4). -/
def w25 : ℚ → SceneState → SceneState :=
  tween (28/5) 1 power2Out fun e s =>
    { s with cam := ⟨lerpQ (1/5) 0 e, lerpQ (9/20) (3/10) e, lerpQ 4 4 e⟩ }

/-- Phase 6: `onStart` re-asserts the big heart (scale 1, opacity 1). -/
def w26 : ℚ → SceneState → SceneState :=
  eventAt (28/5) fun s => setOpacityHeart 1 { s with heartScale := ⟨1, 1, 1⟩ }

/-- Phase 7: the Reset callback at 6.6 s. -/
def w27 : ℚ → SceneState → SceneState := eventAt (33/5) resetCallback

/-- The master timeline: its tweens/callbacks in insertion order. -/
def timelineWriters : List (ℚ → SceneState → SceneState) :=
  [w1, w2, w3, w4, w5, w6, w7, w8, w9, w10, w11, w12, w13, w14, w15, w16,
   w17, w18, w19, w20, w21, w22, w23, w24, w25, w26, w27]

/-- Rendering the timeline at local time `t`, entering the loop
iteration with state `s0`: every tween/callback whose start offset has
been passed contributes, later writers (per property, their windows are
disjoint and insertion-ordered) overriding earlier ones — GSAP's render
semantics under the program's forward-only, `requestAnimationFrame`
driven playback. -/
def renderTL (s0 : SceneState) (t : ℚ) : SceneState :=
  timelineWriters.foldl (fun s wr => wr t s) s0

/-- The loop length: the Reset phase occupies [6.6, 6.8). -/
def LOOP_LEN : ℚ := 34/5

/-- Scene state entering loop iteration `n` (iteration 0 starts from
the Phase-0 initial state). -/
def loopEntry : ℕ → SceneState
  | 0 => initState
  | n + 1 => renderTL (loopEntry n) LOOP_LEN

/-- Which loop iteration global time `g` falls into. -/
def cycleIndex (g : ℚ) : ℕ := (⌊g / LOOP_LEN⌋).toNat

/-- Local timeline time of global time `g`. -/
def localTime (g : ℚ) : ℚ := g - LOOP_LEN * ⌊g / LOOP_LEN⌋

/-- The state the per-frame evaluation observes at global time `g`. -/
def observedAt (g : ℚ) : SceneState :=
  renderTL (loopEntry (cycleIndex g)) (localTime g)

/-! ### The per-frame render loop (`animate`, src/main.js lines 460–469) -/

/-- Timeline-owned state plus the THREE.js rendering camera's position,
which lives outside the timeline. -/
structure World where
  scene : SceneState
  cameraPos : V3
deriving DecidableEq, Repr

/-- One `animate()` frame body before painting:
`camera.position.set(camState.x, camState.y, camState.z)`. -/
def renderFrame (wd : World) : World :=
  { wd with cameraPos := wd.scene.cam }

/-- The operations that touch the world: a timeline evaluation
(everything GSAP does, which only ever mutates scene-graph state and
the tweened `camState` object), or one `animate()` camera copy-back
followed by painting. -/
inductive FrameOp where
  | advance (t : ℚ)
  | render

/-- Apply one frame operation. -/
def applyFrameOp (wd : World) : FrameOp → World
  | .advance t => { wd with scene := renderTL wd.scene t }
  | .render => renderFrame wd

/-- Run a sequence of frame operations. -/
def runFrames (wd : World) : List FrameOp → World
  | [] => wd
  | op :: rest => runFrames (applyFrameOp wd op) rest

/-! ### Helper lemmas for the timeline -/

/-- Rendering the timeline at the loop's end restores the Phase-0
initial state, whatever state the iteration was in. -/
theorem renderTL_loop_end (s : SceneState) : renderTL s LOOP_LEN = initState := by
  simp only [renderTL, timelineWriters, List.foldl, LOOP_LEN]
  norm_num [w1, w2, w3, w4, w5, w6, w7, w8, w9, w10, w11, w12, w13, w14, w15,
    w16, w17, w18, w19, w20, w21, w22, w23, w24, w25, w26, w27,
    tween, tweenDone, eventAt, resetCallback, setOpacityHeart, setOpacityText,
    setOpacitySmall, setOpacityAddon, setOpacityGlow, lerpQ, initState,
    constructionState, backOut, power1Out, power1InOut, power2Out, power2In,
    power2InOut, linearEase]

/-- Every loop iteration is entered in the Phase-0 initial state. -/
theorem loopEntry_eq (n : ℕ) : loopEntry n = initState := by
  induction n with
  | zero => rfl
  | succ k ih =>
      show renderTL (loopEntry k) LOOP_LEN = initState
      rw [ih]
      exact renderTL_loop_end initState

@[simp] theorem w1_fullRot (t : ℚ) (s : SceneState) :
    (w1 t s).fullRot = s.fullRot := by
  unfold w1 tween; split_ifs <;> rfl

@[simp] theorem w2_fullRot (t : ℚ) (s : SceneState) :
    (w2 t s).fullRot = s.fullRot := by
  unfold w2 eventAt setOpacityHeart; split_ifs <;> rfl

@[simp] theorem w3_fullRot (t : ℚ) (s : SceneState) :
    (w3 t s).fullRot = s.fullRot := by
  unfold w3 tween; split_ifs <;> rfl

@[simp] theorem w4_fullRot (t : ℚ) (s : SceneState) :
    (w4 t s).fullRot = s.fullRot := by
  unfold w4 tween; split_ifs <;> rfl

@[simp] theorem w5_fullRot (t : ℚ) (s : SceneState) :
    (w5 t s).fullRot = s.fullRot := by
  unfold w5 eventAt setOpacityText; split_ifs <;> rfl

@[simp] theorem w6_fullRot (t : ℚ) (s : SceneState) :
    (w6 t s).fullRot = s.fullRot := by
  unfold w6 tween; split_ifs <;> rfl

@[simp] theorem w7_fullRot (t : ℚ) (s : SceneState) :
    (w7 t s).fullRot = s.fullRot := by
  unfold w7 tween; split_ifs <;> rfl

@[simp] theorem w8_fullRot (t : ℚ) (s : SceneState) :
    (w8 t s).fullRot = s.fullRot := by
  unfold w8 tween; split_ifs <;> rfl

@[simp] theorem w9_fullRot (t : ℚ) (s : SceneState) :
    (w9 t s).fullRot = s.fullRot := by
  unfold w9 eventAt setOpacitySmall; split_ifs <;> rfl

@[simp] theorem w10_fullRot (t : ℚ) (s : SceneState) :
    (w10 t s).fullRot = s.fullRot := by
  unfold w10 tween; split_ifs <;> rfl

@[simp] theorem w11_fullRot (t : ℚ) (s : SceneState) :
    (w11 t s).fullRot = s.fullRot := by
  unfold w11 tween; split_ifs <;> rfl

@[simp] theorem w12_fullRot (t : ℚ) (s : SceneState) :
    (w12 t s).fullRot = s.fullRot := by
  unfold w12 tween; split_ifs <;> rfl

@[simp] theorem w13_fullRot (t : ℚ) (s : SceneState) :
    (w13 t s).fullRot = s.fullRot := by
  unfold w13 eventAt setOpacityGlow; split_ifs <;> rfl

@[simp] theorem w15_fullRot (t : ℚ) (s : SceneState) :
    (w15 t s).fullRot = s.fullRot := by
  unfold w15 tween; split_ifs <;> rfl

@[simp] theorem w16_fullRot (t : ℚ) (s : SceneState) :
    (w16 t s).fullRot = s.fullRot := by
  unfold w16 tween; split_ifs <;> rfl

@[simp] theorem w17_fullRot (t : ℚ) (s : SceneState) :
    (w17 t s).fullRot = s.fullRot := by
  unfold w17 tween; split_ifs <;> rfl

@[simp] theorem w18_fullRot (t : ℚ) (s : SceneState) :
    (w18 t s).fullRot = s.fullRot := by
  unfold w18 tween; split_ifs <;> rfl

@[simp] theorem w19_fullRot (t : ℚ) (s : SceneState) :
    (w19 t s).fullRot = s.fullRot := by
  unfold w19 tween; split_ifs <;> rfl

@[simp] theorem w20_fullRot (t : ℚ) (s : SceneState) :
    (w20 t s).fullRot = s.fullRot := by
  unfold w20 tween; split_ifs <;> rfl

@[simp] theorem w21_fullRot (t : ℚ) (s : SceneState) :
    (w21 t s).fullRot = s.fullRot := by
  unfold w21 eventAt setOpacityAddon; split_ifs <;> rfl

@[simp] theorem w22_fullRot (t : ℚ) (s : SceneState) :
    (w22 t s).fullRot = s.fullRot := by
  unfold w22 tween; split_ifs <;> rfl

@[simp] theorem w23_fullRot (t : ℚ) (s : SceneState) :
    (w23 t s).fullRot = s.fullRot := by
  unfold w23 eventAt setOpacityGlow; split_ifs <;> rfl

@[simp] theorem w24_fullRot (t : ℚ) (s : SceneState) :
    (w24 t s).fullRot = s.fullRot := by
  unfold w24 tween; split_ifs <;> rfl

@[simp] theorem w25_fullRot (t : ℚ) (s : SceneState) :
    (w25 t s).fullRot = s.fullRot := by
  unfold w25 tween; split_ifs <;> rfl

@[simp] theorem w26_fullRot (t : ℚ) (s : SceneState) :
    (w26 t s).fullRot = s.fullRot := by
  unfold w26 eventAt setOpacityHeart; split_ifs <;> rfl

/-- The hero-spin tween is the only writer of `fullGroup.rotation.y`
before the Reset: inert until 1.8 s, interpolating 0 → 2 (π-units)
until 4.3 s, snapped to 0 by `onComplete` afterwards. -/
theorem w14_fullRotY (t : ℚ) (s : SceneState) :
    (w14 t s).fullRot.y =
      if t < 9/5 then s.fullRot.y
      else if t < 9/5 + 5/2 then lerpQ 0 2 (power2InOut ((t - 9/5) / (5/2)))
      else 0 := by
  unfold w14 tweenDone; split_ifs <;> rfl

/-- The Reset callback zeroes `fullGroup.rotation.y` from 6.6 s on. -/
theorem w27_fullRotY (t : ℚ) (s : SceneState) :
    (w27 t s).fullRot.y = if t < 33/5 then s.fullRot.y else 0 := by
  unfold w27 eventAt; split_ifs with h
  · rfl
  · rfl

/-- `fullGroup.rotation.y` across one whole loop iteration. -/
theorem renderTL_fullRotY (s : SceneState) (t : ℚ) :
    (renderTL s t).fullRot.y =
      if t < 33/5 then
        (if t < 9/5 then s.fullRot.y
         else if t < 9/5 + 5/2 then lerpQ 0 2 (power2InOut ((t - 9/5) / (5/2)))
         else 0)
      else 0 := by
  simp only [renderTL, timelineWriters, List.foldl]
  rw [w27_fullRotY]
  simp only [w26_fullRot, w25_fullRot, w24_fullRot, w23_fullRot, w22_fullRot,
    w21_fullRot, w20_fullRot, w19_fullRot, w18_fullRot, w17_fullRot,
    w16_fullRot, w15_fullRot]
  rw [w14_fullRotY]
  simp only [w13_fullRot, w12_fullRot, w11_fullRot, w10_fullRot, w9_fullRot,
    w8_fullRot, w7_fullRot, w6_fullRot, w5_fullRot, w4_fullRot, w3_fullRot,
    w2_fullRot, w1_fullRot]

/-- The cubic in-out ease maps `[0, 1]` into `[0, 1]`. -/
theorem power2InOut_bounds (p : ℚ) (h0 : 0 ≤ p) (h1 : p ≤ 1) :
    0 ≤ power2InOut p ∧ power2InOut p ≤ 1 := by
  unfold power2InOut
  split_ifs with h
  · constructor
    · nlinarith [pow_nonneg h0 3]
    · nlinarith [pow_le_pow_left h0 h.le 3]
  · have h2 : 0 ≤ 1 - p := by linarith
    have h3 : 1 - p ≤ 1/2 := by linarith
    constructor
    · nlinarith [pow_le_pow_left h2 h3 3]
    · nlinarith [pow_nonneg h2 3]

/-! ### Theorems about the timeline -/

/-- **C2**: the Reset phase's callback restores every property any
phase mutates — heartGroup scale/opacity, textGroup
scale/rotation/opacity, smallHeartPlane position/rotation/opacity,
addonGroup position/scale/rotation/opacity, glowGroup
scale/position/opacity, fullGroup rotation/scale, and the camera state
— to exactly the Phase-0 initial values, whatever state it runs from;
hence rendering the timeline at the loop's end yields exactly the
Phase-0 state, and each loop iteration starts from the same state the
previous one ended in. -/
theorem reset_restores_phase0 (s : SceneState) :
    resetCallback s = initState ∧ renderTL s LOOP_LEN = initState :=
  ⟨rfl, renderTL_loop_end s⟩

/-- **C6**: in every loop iteration `n`, once the Hero Spin phase has
completed (local time ≥ 4.3 s) the full group's rotation about the
vertical axis is exactly 0 — not 2π (the value `2` here, in π-units) or
any other multiple — and throughout the whole loop the rotation stays
bounded by 2π, so it cannot grow across iterations. -/
theorem hero_spin_non_accumulation (n : ℕ) (t : ℚ) (h0 : 0 ≤ t) (h1 : t ≤ LOOP_LEN) :
    (43/10 ≤ t → (renderTL (loopEntry n) t).fullRot.y = 0) ∧
    |(renderTL (loopEntry n) t).fullRot.y| ≤ 2 := by
  rw [loopEntry_eq, renderTL_fullRotY]
  have hinit : initState.fullRot.y = 0 := rfl
  rw [hinit]
  have hLL : LOOP_LEN = 34/5 := rfl
  rw [hLL] at h1
  split_ifs with ha hb hc
  · exact ⟨fun hge => by linarith, by norm_num⟩
  · refine ⟨fun hge => by linarith, ?_⟩
    have hp0 : 0 ≤ (t - 9/5) / (5/2) := by linarith
    have hp1 : (t - 9/5) / (5/2) ≤ 1 := by linarith
    obtain ⟨he0, he1⟩ := power2InOut_bounds _ hp0 hp1
    rw [abs_le]
    unfold lerpQ
    constructor <;> nlinarith
  · exact ⟨fun _ => rfl, by norm_num⟩
  · exact ⟨fun _ => rfl, by norm_num⟩

/-- Witness for C6: loop iteration 2, local time 5 s (after the spin). -/
theorem hero_spin_non_accumulation_witness :
    (43/10 ≤ (5 : ℚ) → (renderTL (loopEntry 2) 5).fullRot.y = 0) ∧
    |(renderTL (loopEntry 2) 5).fullRot.y| ≤ 2 :=
  hero_spin_non_accumulation 2 5 (by norm_num) (by norm_num [LOOP_LEN])

/-- **C7**: the per-frame evaluation is a pure function of the local
timeline clock: any two global times with the same local time — no
matter how many loop iterations and intervening evaluations separate
them — observe identical transform and opacity values for every node
and for the camera state. -/
theorem advance_deterministic (g1 g2 : ℚ) (ht : localTime g1 = localTime g2) :
    observedAt g1 = observedAt g2 := by
  unfold observedAt
  rw [loopEntry_eq, loopEntry_eq, ht]

/-- Witness for C7: global times 7.8 s (second iteration) and 1 s
(first iteration) share local time 1 s and observe the same state. -/
theorem advance_deterministic_witness :
    localTime (39/5) = localTime 1 ∧ observedAt (39/5) = observedAt 1 := by
  have h : localTime (39/5) = localTime 1 := by norm_num [localTime, LOOP_LEN]
  exact ⟨h, advance_deterministic (39/5) 1 h⟩

/-- **C9**: timeline evaluations never mutate the rendering camera's
position (they only write the tweened `camState`, part of the
scene-graph state), and every `animate()` frame copies `camState` into
the rendering camera before painting, so at every paint the rendering
camera's position equals `camState`. -/
theorem camera_copy_back (wd : World) (ops : List FrameOp) (t : ℚ) :
    (applyFrameOp wd (FrameOp.advance t)).cameraPos = wd.cameraPos ∧
    (runFrames wd (ops ++ [FrameOp.render])).cameraPos
      = (runFrames wd (ops ++ [FrameOp.render])).scene.cam := by
  constructor
  · rfl
  · have key : ∀ (os : List FrameOp) (w0 : World),
        runFrames w0 (os ++ [FrameOp.render]) = renderFrame (runFrames w0 os) := by
      intro os
      induction os with
      | nil => intro w0; rfl
      | cons op rest ih => intro w0; exact ih (applyFrameOp w0 op)
    rw [key]
    rfl

end H4R
